import Mathlib

/-!
Verification of the dispatch core of a small tool-invocation server
(`main.py`): the `stream_generator` routing function, the tool registry
(`list_tools`, `call_tool`) and the two capability handlers (`time_tool`,
`weather_tool`).

The embedding models JSON values as an inductive type `Json` (numbers as
integers), Python `dict.get` as a total lookup plus an exception channel
(`Except String`) for the `AttributeError` raised when `.get` is called on a
non-dict, and the real-world effects of the handlers (wall clock, timezone
database, weather HTTP call) as an abstract environment `Env`.
`stream_generator` returns the list of NDJSON lines it yields, one `Response`
per yield.
-/

set_option autoImplicit false

/-- A JSON value as produced by `json.loads` (numbers modelled as integers). -/
inductive Json where
  | null : Json
  | bool : Bool → Json
  | num : Int → Json
  | str : String → Json
  | arr : List Json → Json
  | obj : List (String × Json) → Json

/-- Dictionary lookup where a later binding for the same key overrides an
earlier one, as `json.loads` builds dicts from duplicate keys. -/
def lookupLast (l : List (String × Json)) (k : String) : Option Json :=
  l.foldl (fun acc p => if p.1 = k then some p.2 else acc) none

/-- Python truthiness (`if x:`) on decoded JSON values. -/
def Json.truthy : Json → Bool
  | .null => false
  | .bool b => b
  | .num n => n != 0
  | .str s => s != ""
  | .arr l => !l.isEmpty
  | .obj l => !l.isEmpty

/-- Whether the decoded value is a Python dict. -/
def Json.isObj : Json → Bool
  | .obj _ => true
  | _ => false

/-- `d.get(k)` on a value known to be a dict: the stored value, or `None`
(modelled as `Json.null`) when the key is absent. -/
def Json.getKey : Json → String → Json
  | .obj l, k => (lookupLast l k).getD Json.null
  | _, _ => Json.null

/-- The Python type name of a decoded JSON value, as it appears in
`AttributeError` messages. -/
def pyTypeName : Json → String
  | .null => "NoneType"
  | .bool _ => "bool"
  | .num _ => "int"
  | .str _ => "str"
  | .arr _ => "list"
  | .obj _ => "dict"

/-- `str(e)` for the `AttributeError` raised by `x.get(...)` on a non-dict. -/
def attrErrorGet (j : Json) : String :=
  "\x27" ++ pyTypeName j ++ "\x27 object has no attribute \x27get\x27"

mutual
/-- Python `repr` of a decoded JSON value (string escaping not modelled). -/
def pyRepr : Json → String
  | .null => "None"
  | .bool true => "True"
  | .bool false => "False"
  | .num n => toString n
  | .str s => "\x27" ++ s ++ "\x27"
  | .arr l => "[" ++ String.intercalate ", " (pyReprList l) ++ "]"
  | .obj l => "\x7b" ++ String.intercalate ", " (pyReprObj l) ++ "\x7d"

def pyReprList : List Json → List String
  | [] => []
  | j :: js => pyRepr j :: pyReprList js

def pyReprObj : List (String × Json) → List String
  | [] => []
  | (k, v) :: kvs => ("\x27" ++ k ++ "\x27: " ++ pyRepr v) :: pyReprObj kvs
end

/-- Python `str` of a decoded JSON value, as used by f-string interpolation:
a string interpolates bare, everything else via `repr`-like printing. -/
def pyStr : Json → String
  | .str s => s
  | j => pyRepr j

/-- `x.get(k)`: raises `AttributeError` when `x` is not a dict, otherwise
returns the value (or `None` when absent). -/
def pyGet (j : Json) (k : String) : Except String Json :=
  match j with
  | .obj l => .ok ((lookupLast l k).getD .null)
  | _ => .error (attrErrorGet j)

/-- `x.get(k, d)`: raises `AttributeError` when `x` is not a dict, otherwise
returns the value, or the default `d` when the key is absent. -/
def pyGetD (j : Json) (k : String) (d : Json) : Except String Json :=
  match j with
  | .obj l => .ok ((lookupLast l k).getD d)
  | _ => .error (attrErrorGet j)

/-- `types.TextContent(type="text", text=...)`, the atomic unit a capability
returns. -/
structure TextContent where
  type : String
  text : String
  deriving DecidableEq, Repr

/-- A `types.Tool` descriptor as used by `list_tools` (only the three fields
the dispatch engine projects). -/
structure Tool where
  name : String
  description : String
  inputSchema : Json

/-- `list_tools()` from `main.py`: the fixed registry of the two tools. -/
def list_tools : List Tool :=
  [ { name := "time_tool"
      description := "Get current time for a timezone (e.g. Asia/Kolkata)"
      inputSchema := Json.obj
        [ ("type", Json.str "object")
        , ("properties", Json.obj
            [ ("input_timezone", Json.obj
                [ ("type", Json.str "string")
                , ("description", Json.str "Timezone identifier (e.g., \x27Asia/Kolkata\x27, \x27America/New_York\x27). Optional, defaults to system timezone.") ]) ])
        , ("additionalProperties", Json.bool false) ] }
  , { name := "weather_tool"
      description := "Provides weather info for a given location"
      inputSchema := Json.obj
        [ ("type", Json.str "object")
        , ("properties", Json.obj
            [ ("location", Json.obj
                [ ("type", Json.str "string")
                , ("description", Json.str "Location to get weather for (city name, coordinates, etc.)") ]) ])
        , ("required", Json.arr [Json.str "location"])
        , ("additionalProperties", Json.bool false) ] } ]

/-- The ambient effects the handlers perform, abstracted: the formatted wall
clock, the timezone database, and the whole body of `weather_tool`'s `try`
block (dotenv, API key lookup, HTTP call) which always produces the text of a
single `TextContent`. -/
structure Env where
  /-- `datetime.datetime.now().strftime(fmt)` for the naive local time. -/
  localTimeStr : String
  /-- `now.astimezone(ZoneInfo(tz)).strftime(fmt)` when `ZoneInfo(tz)` resolves. -/
  tzTimeStr : String → String
  /-- Whether `ZoneInfo(tz)` resolves (for a string argument). -/
  isValidTz : String → Bool
  /-- `str(e)` for the exception raised by `ZoneInfo(x)`: `ZoneInfoNotFoundError`
  for an unresolvable string, `TypeError` for a non-string. -/
  tzErrStr : Json → String
  /-- The text produced by the `try` block of `weather_tool` for a truthy
  location (API success, missing key, network failure, missing fields — every
  path there returns exactly one text). -/
  weatherStr : Json → String

/-- `time_tool(input_timezone)` from `main.py`. The argument is the decoded
JSON value of `arguments.get("input_timezone")` (`Json.null` for an absent
key). Total: every failure is converted to a diagnostic `TextContent`, and in
this model the outer `try` of the Python body has nothing left to catch. -/
def time_tool (env : Env) (input_timezone : Json) : List TextContent :=
  if input_timezone.truthy then
    match input_timezone with
    | .str tz =>
      if env.isValidTz tz then
        [⟨"text", "The current time is " ++ env.tzTimeStr tz ++ "."⟩]
      else
        [⟨"text", "Invalid timezone \x27" ++ pyStr input_timezone ++ "\x27. Error: "
            ++ env.tzErrStr input_timezone⟩]
    | _ =>
        [⟨"text", "Invalid timezone \x27" ++ pyStr input_timezone ++ "\x27. Error: "
            ++ env.tzErrStr input_timezone⟩]
  else
    [⟨"text", "The current time is " ++ env.localTimeStr ++ "."⟩]

/-- `weather_tool(location)` from `main.py`. The argument is the decoded JSON
value of `arguments.get("location")`. A falsy location short-circuits before
any I/O; otherwise the `try` block runs, abstracted by `Env.weatherStr`. -/
def weather_tool (env : Env) (location : Json) : List TextContent :=
  if location.truthy then
    [⟨"text", env.weatherStr location⟩]
  else
    [⟨"text", "Location parameter is required."⟩]

/-- `call_tool(name, arguments)` from `main.py`. Dispatches on the tool name
(Python `==` against the two registered names); an unknown name raises
`ValueError(f"Unknown tool: {name}")`. `arguments.get(...)` raises when
`arguments` is not a dict; both exceptions travel on the `Except` channel. -/
def call_tool (env : Env) (name : Json) (arguments : Json) :
    Except String (List TextContent) :=
  match name with
  | .str "time_tool" =>
    match pyGet arguments "input_timezone" with
    | .error e => .error e
    | .ok tz => .ok (time_tool env tz)
  | .str "weather_tool" =>
    match pyGet arguments "location" with
    | .error e => .error e
    | .ok loc => .ok (weather_tool env loc)
  | other => .error ("Unknown tool: " ++ pyStr other)

/-- A response envelope: `{"jsonrpc":"2.0","id":...,"result":...}` or
`{"jsonrpc":"2.0","id":...,"error":{"code":...,"message":...}}`. -/
inductive Response where
  | result (id : Json) (res : Json)
  | error (id : Json) (code : Int) (message : String)

/-- The `id` field of a response envelope. -/
def Response.id : Response → Json
  | .result i _ => i
  | .error i _ _ => i

/-- The error code of a response envelope, if it is an error. -/
def Response.code? : Response → Option Int
  | .result _ _ => none
  | .error _ c _ => some c

/-- The `result` payload of the `initialize` route (literal from `main.py`). -/
def initializeResult : Json :=
  Json.obj
    [ ("protocolVersion", Json.str "2024-11-05")
    , ("capabilities", Json.obj [("tools", Json.obj [])])
    , ("serverInfo", Json.obj
        [ ("name", Json.str "time-weather-mcp")
        , ("version", Json.str "1.0.0") ]) ]

/-- The projection `{"name": ..., "description": ..., "inputSchema": ...}`
applied to each tool in the `tools/list` route. -/
def toolToJson (t : Tool) : Json :=
  Json.obj
    [ ("name", Json.str t.name)
    , ("description", Json.str t.description)
    , ("inputSchema", t.inputSchema) ]

/-- The `result` payload of the `tools/list` route. -/
def toolsListResult : Json :=
  Json.obj [("tools", Json.arr (list_tools.map toolToJson))]

/-- `{"type": c.type, "text": c.text}` applied to each returned content item
in the `tools/call` route. -/
def contentToJson (c : TextContent) : Json :=
  Json.obj [("type", Json.str c.type), ("text", Json.str c.text)]

/-- The body of the outer `try` of `stream_generator`: route one decoded
message and build the one response it yields. An `Except.error` is an
uncaught Python exception escaping to the outer `except` (only
`message.get` on a non-dict body or `params.get` on a non-dict `params`
can raise here; `message.get("id")` occurs only after `message.get("method")`
succeeded, so the total `Json.getKey` is faithful for it). -/
def dispatch (env : Env) (message : Json) : Except String Response :=
  match pyGet message "method" with
  | .error e => .error e
  | .ok method =>
    match method with
    | .str "initialize" =>
      .ok (.result (message.getKey "id") initializeResult)
    | .str "tools/list" =>
      .ok (.result (message.getKey "id") toolsListResult)
    | .str "tools/call" =>
      match pyGetD message "params" (Json.obj []) with
      | .error e => .error e
      | .ok params =>
        match pyGet params "name" with
        | .error e => .error e
        | .ok tool_name =>
          match pyGetD params "arguments" (Json.obj []) with
          | .error e => .error e
          | .ok arguments =>
            match call_tool env tool_name arguments with
            | .ok result =>
              .ok (.result (message.getKey "id")
                (Json.obj [("content", Json.arr (result.map contentToJson))]))
            | .error e =>
              .ok (.error (message.getKey "id") (-32000) e)
    | other =>
      .ok (.error (message.getKey "id") (-32601)
        ("Method not found: " ++ pyStr other))

/-- The outcome of `json.loads(request_body.decode())`: the decoded value, or
the `str(e)` of the raised exception. -/
inductive ParseResult where
  | fail (msg : String) : ParseResult
  | ok (message : Json) : ParseResult

/-- `stream_generator(request_body)` from `main.py`: the list of NDJSON lines
it yields, one `Response` per yield. Any exception from decoding or routing is
absorbed by the outer `except` into a single `-32700` parse-error envelope. -/
def stream_generator (env : Env) (body : ParseResult) : List Response :=
  match body with
  | .fail e => [.error .null (-32700) ("Parse error: " ++ e)]
  | .ok message =>
    match dispatch env message with
    | .ok resp => [resp]
    | .error e => [.error .null (-32700) ("Parse error: " ++ e)]

/-- A concrete environment used to evaluate the model on concrete requests. -/
def testEnv : Env where
  localTimeStr := "2025-01-01 12:00:00 "
  tzTimeStr := fun _ => "2025-01-01 17:30:00 IST+0530"
  isValidTz := fun s => s == "Asia/Kolkata"
  tzErrStr := fun j => "No time zone found with key " ++ pyStr j
  weatherStr := fun j => "The weather in " ++ pyStr j ++ " is Sunny at 25°C."

/-- The `tools/list` payload written out in full: the two descriptors in
registration order, each projected to name, description and input schema. -/
def toolsListExpected : Json :=
  Json.obj [("tools", Json.arr
    [ Json.obj
        [ ("name", Json.str "time_tool")
        , ("description", Json.str "Get current time for a timezone (e.g. Asia/Kolkata)")
        , ("inputSchema", Json.obj
            [ ("type", Json.str "object")
            , ("properties", Json.obj
                [ ("input_timezone", Json.obj
                    [ ("type", Json.str "string")
                    , ("description", Json.str "Timezone identifier (e.g., \x27Asia/Kolkata\x27, \x27America/New_York\x27). Optional, defaults to system timezone.") ]) ])
            , ("additionalProperties", Json.bool false) ]) ]
    , Json.obj
        [ ("name", Json.str "weather_tool")
        , ("description", Json.str "Provides weather info for a given location")
        , ("inputSchema", Json.obj
            [ ("type", Json.str "object")
            , ("properties", Json.obj
                [ ("location", Json.obj
                    [ ("type", Json.str "string")
                    , ("description", Json.str "Location to get weather for (city name, coordinates, etc.)") ]) ])
            , ("required", Json.arr [Json.str "location"])
            , ("additionalProperties", Json.bool false) ]) ] ])]

theorem pyGet_obj (l : List (String × Json)) (k : String) :
    pyGet (Json.obj l) k = .ok (Json.getKey (Json.obj l) k) := rfl

theorem pyGetD_obj (l : List (String × Json)) (k : String) (d : Json) :
    pyGetD (Json.obj l) k d = .ok ((lookupLast l k).getD d) := rfl

/-- An unregistered tool name makes `call_tool` raise
`ValueError(f"Unknown tool: {name}")` before touching the arguments. -/
theorem call_tool_unknown (env : Env) (t : String) (arguments : Json)
    (ht1 : t ≠ "time_tool") (ht2 : t ≠ "weather_tool") :
    call_tool env (Json.str t) arguments = .error ("Unknown tool: " ++ t) := by
  unfold call_tool
  split <;> simp_all [pyStr]

/-- Every normal return of the routing body carries the request's `id`. -/
theorem dispatch_ok_id (env : Env) (m : Json) (r : Response)
    (h : dispatch env m = .ok r) : r.id = m.getKey "id" := by
  unfold dispatch at h
  repeat' split at h
  all_goals first
  | (cases h; simp [Response.id])
  | simp_all

/-- A normal return of the routing body is a result or an error coded
`-32000` or `-32601`; `-32700` never comes from a completed route. -/
theorem dispatch_ok_code (env : Env) (m : Json) (r : Response)
    (h : dispatch env m = .ok r) :
    r.code? = none ∨ r.code? = some (-32000) ∨ r.code? = some (-32601) := by
  unfold dispatch at h
  repeat' split at h
  all_goals first
  | (cases h; simp [Response.code?])
  | simp_all

/-- Routing a decoded body that is not a dict raises `AttributeError` at
`message.get("method")`. -/
theorem dispatch_nonobj (env : Env) (m : Json) (h : m.isObj = false) :
    dispatch env m = .error (attrErrorGet m) := by
  cases m <;> simp_all [dispatch, pyGet, Json.isObj]

/-- C1: every request body yields exactly one response envelope, and whenever
routing returns normally (the five routes: initialize, tools/list, tools/call
success, tools/call error, unknown method) the response carries the request
message's id, with a missing id field reproduced as null. -/
theorem c1_single_response_same_id (env : Env) (body : ParseResult) :
    (stream_generator env body).length = 1 ∧
    ∀ m r, body = .ok m → dispatch env m = .ok r →
      stream_generator env body = [r] ∧ r.id = m.getKey "id" ∧
      ∀ ml, m = Json.obj ml → lookupLast ml "id" = none → r.id = Json.null := by
  constructor
  · cases body with
    | fail e => rfl
    | ok m => cases h : dispatch env m <;> simp [stream_generator, h]
  · rintro m r rfl hd
    refine ⟨by simp [stream_generator, hd], dispatch_ok_id env m r hd, ?_⟩
    rintro ml rfl hnone
    rw [dispatch_ok_id env _ r hd]
    simp [Json.getKey, hnone]

theorem c1_witness :
    (stream_generator testEnv (.ok (Json.obj [("method", Json.str "initialize")]))).length = 1 ∧
    stream_generator testEnv (.ok (Json.obj [("method", Json.str "initialize")]))
      = [.result Json.null initializeResult] ∧
    (Response.result Json.null initializeResult).id = Json.null := by
  have h := c1_single_response_same_id testEnv (.ok (Json.obj [("method", Json.str "initialize")]))
  have h2 := h.2 (Json.obj [("method", Json.str "initialize")])
    (.result Json.null initializeResult) rfl rfl
  exact ⟨h.1, h2.1, h2.2.2 [("method", Json.str "initialize")] rfl rfl⟩

/-- C2 counterexample: a body that parses into a structured message (a JSON
object) and still makes the engine emit a `-32700` envelope — the `tools/call`
route with a non-dict `params` raises `AttributeError`, absorbed by the
parse-error branch. So `-32700` is not produced only on parse failure. -/
theorem c2_counterexample :
    (Json.obj [("jsonrpc", Json.str "2.0"), ("id", Json.num 1),
        ("method", Json.str "tools/call"), ("params", Json.num 5)]).isObj = true ∧
    stream_generator testEnv (.ok (Json.obj [("jsonrpc", Json.str "2.0"), ("id", Json.num 1),
        ("method", Json.str "tools/call"), ("params", Json.num 5)]))
      = [.error .null (-32700) "Parse error: \x27int\x27 object has no attribute \x27get\x27"] :=
  ⟨rfl, rfl⟩

/-- C2 (amended): a body whose bytes fail to parse yields exactly one Error
with id null, code `-32700` and a message beginning with "Parse error: "; and
`-32700` is emitted exactly when decoding or routing raises — JSON decode
failure, a non-object body, or a `tools/call` whose `params` is not an
object — never by a route that completes. -/
theorem c2_parse_error_behavior (env : Env) :
    (∀ e, stream_generator env (.fail e)
        = [.error .null (-32700) ("Parse error: " ++ e)]) ∧
    (∀ body r, stream_generator env body = [r] → r.code? = some (-32700) →
      (∃ e, body = .fail e ∧ r = .error .null (-32700) ("Parse error: " ++ e)) ∨
      (∃ m e, body = .ok m ∧ dispatch env m = .error e ∧
        r = .error .null (-32700) ("Parse error: " ++ e))) := by
  refine ⟨fun e => rfl, ?_⟩
  intro body r hsg hcode
  cases body with
  | fail e =>
    left
    refine ⟨e, rfl, ?_⟩
    simpa [stream_generator] using hsg.symm
  | ok m =>
    cases hd : dispatch env m with
    | ok resp =>
      have hr : resp = r := by simpa [stream_generator, hd] using hsg
      subst hr
      rcases dispatch_ok_code env m resp hd with h | h | h <;>
        rw [h] at hcode <;> simp_all
    | error e =>
      right
      refine ⟨m, e, rfl, hd, ?_⟩
      simpa [stream_generator, hd] using hsg.symm

theorem c2_witness :
    (stream_generator testEnv (.fail "Expecting value: line 1 column 1 (char 0)")
      = [.error .null (-32700) "Parse error: Expecting value: line 1 column 1 (char 0)"]) ∧
    ((∃ e, (ParseResult.ok (Json.num 7) : ParseResult) = .fail e ∧
        (Response.error .null (-32700)
          "Parse error: \x27int\x27 object has no attribute \x27get\x27" : Response)
          = .error .null (-32700) ("Parse error: " ++ e)) ∨
     (∃ m e, (ParseResult.ok (Json.num 7) : ParseResult) = .ok m ∧
        dispatch testEnv m = .error e ∧
        (Response.error .null (-32700)
          "Parse error: \x27int\x27 object has no attribute \x27get\x27" : Response)
          = .error .null (-32700) ("Parse error: " ++ e))) := by
  refine ⟨(c2_parse_error_behavior testEnv).1 "Expecting value: line 1 column 1 (char 0)", ?_⟩
  exact (c2_parse_error_behavior testEnv).2 (.ok (Json.num 7))
    (.error .null (-32700) "Parse error: \x27int\x27 object has no attribute \x27get\x27")
    rfl rfl

/-- C3: a `tools/call` naming an unregistered tool gets exactly one Error with
the request's id, code `-32000`, and a message containing the tool name. -/
theorem c3_unknown_tool (env : Env) (ml pl : List (String × Json)) (t : String)
    (hmethod : lookupLast ml "method" = some (Json.str "tools/call"))
    (hparams : lookupLast ml "params" = some (Json.obj pl))
    (hname : lookupLast pl "name" = some (Json.str t))
    (ht1 : t ≠ "time_tool") (ht2 : t ≠ "weather_tool") :
    stream_generator env (.ok (Json.obj ml))
      = [.error ((Json.obj ml).getKey "id") (-32000) ("Unknown tool: " ++ t)] ∧
    ∃ p, "Unknown tool: " ++ t = p ++ t := by
  have hd : dispatch env (Json.obj ml)
      = .ok (.error ((Json.obj ml).getKey "id") (-32000) ("Unknown tool: " ++ t)) := by
    simp [dispatch, pyGet, pyGetD, hmethod, hparams, hname,
      call_tool_unknown env t _ ht1 ht2]
  exact ⟨by simp [stream_generator, hd], "Unknown tool: ", rfl⟩

theorem c3_witness :
    (stream_generator testEnv (.ok (Json.obj [("id", Json.num 5), ("method", Json.str "tools/call"),
        ("params", Json.obj [("name", Json.str "bogus_tool"), ("arguments", Json.obj [])])]))
      = [.error (Json.num 5) (-32000) "Unknown tool: bogus_tool"]) ∧
    ∃ p, "Unknown tool: bogus_tool" = p ++ "bogus_tool" := by
  exact c3_unknown_tool testEnv
    [("id", Json.num 5), ("method", Json.str "tools/call"),
      ("params", Json.obj [("name", Json.str "bogus_tool"), ("arguments", Json.obj [])])]
    [("name", Json.str "bogus_tool"), ("arguments", Json.obj [])]
    "bogus_tool" rfl rfl rfl (by decide) (by decide)

/-- C4: a request whose method string is none of the three known methods gets
exactly one Error with the request's id, code `-32601`, and a message
containing the method value. -/
theorem c4_method_not_found (env : Env) (ml : List (String × Json)) (s : String)
    (hmethod : lookupLast ml "method" = some (Json.str s))
    (h1 : s ≠ "initialize") (h2 : s ≠ "tools/list") (h3 : s ≠ "tools/call") :
    stream_generator env (.ok (Json.obj ml))
      = [.error ((Json.obj ml).getKey "id") (-32601) ("Method not found: " ++ s)] ∧
    ∃ p, "Method not found: " ++ s = p ++ s := by
  have hd : dispatch env (Json.obj ml)
      = .ok (.error ((Json.obj ml).getKey "id") (-32601) ("Method not found: " ++ s)) := by
    unfold dispatch
    rw [pyGet_obj]
    simp only [Json.getKey, hmethod, Option.getD]
    split <;> simp_all [pyStr]
  exact ⟨by simp [stream_generator, hd], "Method not found: ", rfl⟩

theorem c4_witness :
    (stream_generator testEnv (.ok (Json.obj [("id", Json.num 6), ("method", Json.str "bogus/method")]))
      = [.error (Json.num 6) (-32601) "Method not found: bogus/method"]) ∧
    ∃ p, "Method not found: bogus/method" = p ++ "bogus/method" := by
  exact c4_method_not_found testEnv [("id", Json.num 6), ("method", Json.str "bogus/method")]
    "bogus/method" rfl (by decide) (by decide) (by decide)

/-- C5: an `initialize` request gets exactly one Result with the request's id
whose payload is the fixed protocolVersion/capabilities/serverInfo literal,
independent of `params` and of the environment (no effects, no registry). -/
theorem c5_initialize_route (env : Env) (ml : List (String × Json))
    (hmethod : lookupLast ml "method" = some (Json.str "initialize")) :
    stream_generator env (.ok (Json.obj ml))
      = [.result ((Json.obj ml).getKey "id") initializeResult] ∧
    initializeResult = Json.obj
      [ ("protocolVersion", Json.str "2024-11-05")
      , ("capabilities", Json.obj [("tools", Json.obj [])])
      , ("serverInfo", Json.obj
          [ ("name", Json.str "time-weather-mcp")
          , ("version", Json.str "1.0.0") ]) ] := by
  have hd : dispatch env (Json.obj ml)
      = .ok (.result ((Json.obj ml).getKey "id") initializeResult) := by
    simp [dispatch, pyGet, hmethod]
  exact ⟨by simp [stream_generator, hd], rfl⟩

theorem c5_witness :
    stream_generator testEnv (.ok (Json.obj [("id", Json.num 1), ("method", Json.str "initialize"),
        ("params", Json.arr [Json.num 3, Json.bool true])]))
      = [.result (Json.num 1) initializeResult] := by
  exact (c5_initialize_route testEnv [("id", Json.num 1), ("method", Json.str "initialize"),
    ("params", Json.arr [Json.num 3, Json.bool true])] rfl).1

/-- C6: a `tools/list` request gets exactly one Result whose `tools` array has
exactly the two descriptors, `time_tool` then `weather_tool`, each projected to
name/description/inputSchema; `time_tool` has an optional string property
`input_timezone` (no `required` key), `weather_tool` a required string
property `location`. -/
theorem c6_tools_list (env : Env) (ml : List (String × Json))
    (hmethod : lookupLast ml "method" = some (Json.str "tools/list")) :
    stream_generator env (.ok (Json.obj ml))
      = [.result ((Json.obj ml).getKey "id") toolsListExpected] ∧
    toolsListResult = toolsListExpected ∧
    list_tools.map Tool.name = ["time_tool", "weather_tool"] ∧
    list_tools.map (fun t => t.inputSchema.getKey "required")
      = [Json.null, Json.arr [Json.str "location"]] ∧
    list_tools.map (fun t => ((t.inputSchema.getKey "properties").getKey "input_timezone").getKey "type")
      = [Json.str "string", Json.null] ∧
    list_tools.map (fun t => ((t.inputSchema.getKey "properties").getKey "location").getKey "type")
      = [Json.null, Json.str "string"] := by
  have hd : dispatch env (Json.obj ml)
      = .ok (.result ((Json.obj ml).getKey "id") toolsListResult) := by
    simp [dispatch, pyGet, hmethod]
  exact ⟨by simp [stream_generator, hd]; rfl, rfl, rfl, rfl, rfl, rfl⟩

theorem c6_witness :
    stream_generator testEnv (.ok (Json.obj [("id", Json.num 7), ("method", Json.str "tools/list")]))
      = [.result (Json.num 7) toolsListExpected] ∧
    list_tools.map Tool.name = ["time_tool", "weather_tool"] := by
  have h := c6_tools_list testEnv [("id", Json.num 7), ("method", Json.str "tools/list")] rfl
  exact ⟨h.1, h.2.2.1⟩

/-- C7: a `tools/call` of `time_tool` with an unresolvable timezone string gets
a Result (not an Error) holding one text item whose text starts with
"Invalid timezone <tz>" (single quotes around the zone); and `time_tool`
returns exactly one text item on every input, never raising. -/
theorem c7_time_tool_invalid_tz (env : Env) (ml pl al : List (String × Json)) (tz : String)
    (hmethod : lookupLast ml "method" = some (Json.str "tools/call"))
    (hparams : lookupLast ml "params" = some (Json.obj pl))
    (hname : lookupLast pl "name" = some (Json.str "time_tool"))
    (hargs : lookupLast pl "arguments" = some (Json.obj al))
    (htz : lookupLast al "input_timezone" = some (Json.str tz))
    (hne : tz ≠ "") (hinv : env.isValidTz tz = false) :
    (stream_generator env (.ok (Json.obj ml))
      = [.result ((Json.obj ml).getKey "id") (Json.obj [("content", Json.arr
          [Json.obj [("type", Json.str "text"),
            ("text", Json.str ("Invalid timezone \x27" ++ tz ++ "\x27. Error: "
              ++ env.tzErrStr (Json.str tz)))]])])]) ∧
    (∃ rest, "Invalid timezone \x27" ++ tz ++ "\x27. Error: " ++ env.tzErrStr (Json.str tz)
      = ("Invalid timezone \x27" ++ tz ++ "\x27") ++ rest) ∧
    (∀ j, ∃ s, time_tool env j = [⟨"text", s⟩]) := by
  refine ⟨?_, ?_, ?_⟩
  · have htt : time_tool env (Json.str tz)
        = [⟨"text", "Invalid timezone \x27" ++ tz ++ "\x27. Error: "
            ++ env.tzErrStr (Json.str tz)⟩] := by
      simp [time_tool, Json.truthy, hne, hinv, pyStr]
    have hd : dispatch env (Json.obj ml)
        = .ok (.result ((Json.obj ml).getKey "id") (Json.obj [("content", Json.arr
            [Json.obj [("type", Json.str "text"),
              ("text", Json.str ("Invalid timezone \x27" ++ tz ++ "\x27. Error: "
                ++ env.tzErrStr (Json.str tz)))]])])) := by
      simp [dispatch, pyGet, pyGetD, hmethod, hparams, hname, hargs, htz,
        call_tool, htt, contentToJson]
    simp [stream_generator, hd]
  · refine ⟨". Error: " ++ env.tzErrStr (Json.str tz), ?_⟩
    have h : "\x27. Error: " = "\x27" ++ ". Error: " := rfl
    simp only [h, String.append_assoc]
  · intro j
    unfold time_tool
    repeat' split
    all_goals exact ⟨_, rfl⟩

theorem c7_witness :
    (stream_generator testEnv (.ok (Json.obj [("id", Json.num 2), ("method", Json.str "tools/call"),
        ("params", Json.obj [("name", Json.str "time_tool"),
          ("arguments", Json.obj [("input_timezone", Json.str "Not/AZone")])])]))
      = [.result (Json.num 2) (Json.obj [("content", Json.arr
          [Json.obj [("type", Json.str "text"),
            ("text", Json.str "Invalid timezone \x27Not/AZone\x27. Error: No time zone found with key Not/AZone")]])])]) ∧
    ∃ rest, "Invalid timezone \x27Not/AZone\x27. Error: No time zone found with key Not/AZone"
      = "Invalid timezone \x27Not/AZone\x27" ++ rest := by
  have h := c7_time_tool_invalid_tz testEnv
    [("id", Json.num 2), ("method", Json.str "tools/call"),
      ("params", Json.obj [("name", Json.str "time_tool"),
        ("arguments", Json.obj [("input_timezone", Json.str "Not/AZone")])])]
    [("name", Json.str "time_tool"),
      ("arguments", Json.obj [("input_timezone", Json.str "Not/AZone")])]
    [("input_timezone", Json.str "Not/AZone")]
    "Not/AZone" rfl rfl rfl rfl rfl (by decide) (by decide)
  exact ⟨h.1, h.2.1⟩

/-- C8: a `tools/call` of `weather_tool` whose resolved location is missing or
empty — including when `params.arguments` is absent and defaults to the empty
dict — gets a Result (not a protocol Error) holding the single text item
"Location parameter is required.". -/
theorem c8_weather_missing_location (env : Env) (ml pl al : List (String × Json))
    (hmethod : lookupLast ml "method" = some (Json.str "tools/call"))
    (hparams : lookupLast ml "params" = some (Json.obj pl))
    (hname : lookupLast pl "name" = some (Json.str "weather_tool"))
    (hargs : (lookupLast pl "arguments").getD (Json.obj []) = Json.obj al)
    (hloc : (lookupLast al "location").getD Json.null = Json.null ∨
            (lookupLast al "location").getD Json.null = Json.str "") :
    stream_generator env (.ok (Json.obj ml))
      = [.result ((Json.obj ml).getKey "id") (Json.obj [("content", Json.arr
          [Json.obj [("type", Json.str "text"),
            ("text", Json.str "Location parameter is required.")]])])] := by
  have hwt : weather_tool env ((lookupLast al "location").getD Json.null)
      = [⟨"text", "Location parameter is required."⟩] := by
    rcases hloc with h | h <;> rw [h] <;> simp [weather_tool, Json.truthy]
  have hd : dispatch env (Json.obj ml)
      = .ok (.result ((Json.obj ml).getKey "id") (Json.obj [("content", Json.arr
          [Json.obj [("type", Json.str "text"),
            ("text", Json.str "Location parameter is required.")]])])) := by
    simp [dispatch, pyGet, pyGetD, hmethod, hparams, hname, hargs,
      call_tool, hwt, contentToJson]
  simp [stream_generator, hd]

theorem c8_witness :
    stream_generator testEnv (.ok (Json.obj [("id", Json.num 3), ("method", Json.str "tools/call"),
        ("params", Json.obj [("name", Json.str "weather_tool"), ("arguments", Json.obj [])])]))
      = [.result (Json.num 3) (Json.obj [("content", Json.arr
          [Json.obj [("type", Json.str "text"),
            ("text", Json.str "Location parameter is required.")]])])] := by
  exact c8_weather_missing_location testEnv
    [("id", Json.num 3), ("method", Json.str "tools/call"),
      ("params", Json.obj [("name", Json.str "weather_tool"), ("arguments", Json.obj [])])]
    [("name", Json.str "weather_tool"), ("arguments", Json.obj [])]
    [] rfl rfl rfl rfl (Or.inl rfl)

/-- C9: a decoded body that is not an object yields exactly one Error with id
null and code `-32700` whose message begins "Parse error: "; more generally the
parse-error branch absorbs every exception raised during routing, not only
JSON decoding failures. -/
theorem c9_absorbed_routing_exceptions (env : Env) (m : Json) :
    (m.isObj = false →
      stream_generator env (.ok m)
        = [.error .null (-32700) ("Parse error: " ++ attrErrorGet m)]) ∧
    (∀ e, dispatch env m = .error e →
      stream_generator env (.ok m) = [.error .null (-32700) ("Parse error: " ++ e)]) := by
  constructor
  · intro h
    simp [stream_generator, dispatch_nonobj env m h]
  · intro e h
    simp [stream_generator, h]

theorem c9_witness :
    stream_generator testEnv (.ok (Json.num 7))
      = [.error .null (-32700)
          "Parse error: \x27int\x27 object has no attribute \x27get\x27"] := by
  exact (c9_absorbed_routing_exceptions testEnv (Json.num 7)).1 rfl

/-- C10: a `tools/call` whose params carry no `name` (including an absent
`params` defaulting to the empty dict, so the resolved name is None) gets
exactly one Error with the request's id, code `-32000` and message
"Unknown tool: None". -/
theorem c10_missing_tool_name (env : Env) (ml pl : List (String × Json))
    (hmethod : lookupLast ml "method" = some (Json.str "tools/call"))
    (hparams : (lookupLast ml "params").getD (Json.obj []) = Json.obj pl)
    (hname : (lookupLast pl "name").getD Json.null = Json.null) :
    stream_generator env (.ok (Json.obj ml))
      = [.error ((Json.obj ml).getKey "id") (-32000) "Unknown tool: None"] := by
  have hct : call_tool env Json.null ((lookupLast pl "arguments").getD (Json.obj []))
      = .error "Unknown tool: None" := rfl
  have hd : dispatch env (Json.obj ml)
      = .ok (.error ((Json.obj ml).getKey "id") (-32000) "Unknown tool: None") := by
    simp [dispatch, pyGet, pyGetD, hmethod, hparams, hname, hct]
  simp [stream_generator, hd]

theorem c10_witness :
    stream_generator testEnv (.ok (Json.obj [("id", Json.num 4), ("method", Json.str "tools/call")]))
      = [.error (Json.num 4) (-32000) "Unknown tool: None"] := by
  exact c10_missing_tool_name testEnv
    [("id", Json.num 4), ("method", Json.str "tools/call")] [] rfl rfl rfl
